import Mathlib

/-!
Shallow embedding of `public/app/plugins/datasource/prometheus/datasource.ts`
(PrometheusDatasource) from the ModioAB/grafana repository.

JavaScript numbers are modelled as exact rationals (ℚ); `Math.floor` and
`Math.ceil` become `Int.floor` / `Int.ceil`.  External collaborators
(the HTTP backend, the template service, the result transformer,
`safeStringifyValue`) are abstracted as function parameters.
-/

namespace PromDatasource

/-- Result of `alignRange`; the source returns an object with
fields `end` and `start` (`end` is a reserved word in Lean, so the
field is called `stop`). -/
structure AlignedRange where
  stop : ℚ
  start : ℚ
  deriving Repr, DecidableEq

/-- Embedding of the exported function `alignRange(start, end, step)`:
`alignedEnd = Math.floor(end / step) * step` and
`alignedStart = Math.floor(start / step) * step`. -/
def alignRange (start stop step : ℚ) : AlignedRange :=
  { stop := (⌊stop / step⌋ : ℚ) * step
    start := (⌊start / step⌋ : ℚ) * step }

/-- Embedding of `PrometheusDatasource.adjustInterval`:
if `interval !== 0 && range / intervalFactor / interval > 11000` then
`interval = Math.ceil(range / intervalFactor / 11000)`; the result is
`Math.max(interval * intervalFactor, minInterval, 1)`. -/
def adjustInterval (interval minInterval range intervalFactor : ℚ) : ℚ :=
  let interval' :=
    if interval ≠ 0 ∧ 11000 < range / intervalFactor / interval then
      ((⌈range / intervalFactor / 11000⌉ : ℤ) : ℚ)
    else interval
  max (interval' * intervalFactor) (max minInterval 1)

/-- Query context, from `./types` (`PromContext`); `datasource.ts` only
distinguishes `Explore` from the rest. -/
inductive PromContext where
  | explore
  | panel
  deriving Repr, DecidableEq

/-- The fields of a query target (`PromQuery` from `./types`) that
`datasource.ts` reads or writes.  `expr = ""` models a missing/empty
expression (both are falsy in JavaScript). -/
structure PromQuery where
  expr : String
  hide : Bool
  context : PromContext
  format : String
  instant : Bool
  valueWithRefId : Bool
  requestId : String
  refId : String
  intervalFactor : Option ℚ
  hinting : Bool
  deriving Repr, DecidableEq

/-- The query object built by `createQuery` (`PromQueryRequest` from
`./types`); the source's `end` field is called `stop` here. -/
structure PromQueryRequest where
  hinting : Bool
  instant : Bool
  step : ℚ
  expr : String
  requestId : String
  refId : String
  start : ℚ
  stop : ℚ
  deriving Repr, DecidableEq

/-- JavaScript `target.intervalFactor || 1`: a missing or zero factor
falls back to 1. -/
def jsIntervalFactor : Option ℚ → ℚ
  | none => 1
  | some f => if f ≠ 0 then f else 1

/-- Embedding of `PrometheusDatasource.createQuery`.  The host services it
consults are abstracted: `intervalSeconds` is `kbn.interval_to_seconds`
applied to the dynamically calculated `options.interval`,
`minIntervalSeconds` is the same conversion of the target's "Min step"
(falling back to `options.interval`), `replaceExpr` is the template-variable
substitution composed with the adhoc-filter rewriting, and `panelId` is
`options.panelId` as a string (JavaScript `+` on number and string
concatenates). -/
def createQuery (intervalSeconds minIntervalSeconds : ℚ) (replaceExpr : String → String)
    (panelId : String) (target : PromQuery) (start stop : ℚ) : PromQueryRequest :=
  let range : ℚ := ((⌈stop - start⌉ : ℤ) : ℚ)
  let intervalFactor := jsIntervalFactor target.intervalFactor
  let adjustedInterval := adjustInterval intervalSeconds minIntervalSeconds range intervalFactor
  let interval := if intervalSeconds ≠ adjustedInterval then adjustedInterval else intervalSeconds
  let adjusted := alignRange start stop interval
  { hinting := target.hinting
    instant := target.instant
    step := interval
    expr := replaceExpr target.expr
    requestId := panelId ++ target.refId
    refId := target.refId
    start := adjusted.start
    stop := adjusted.stop }

/-- The normalized error object (`DataQueryError` from `@grafana/ui`)
built by `handleErrors`; `none` models an absent (undefined) field. -/
structure DataQueryError where
  message : String
  refId : String
  status : Option ℤ
  statusText : Option String
  deriving Repr, DecidableEq

/-- The `data` field of an HTTP-layer error: either a string body or an
object whose `error` field, when present and truthy, is stringified with
`safeStringifyValue`.  In the `obj` case the payload is kept as the string
the external `safeStringifyValue` receives; `none` models an absent or
falsy `error` field. -/
inductive ErrData where
  | str (s : String)
  | obj (error : Option String)
  deriving Repr, DecidableEq

/-- The fields of an HTTP-layer error object that `handleErrors` reads;
`none` models an absent (undefined) field. -/
structure ErrFields where
  cancelled : Bool
  data : Option ErrData
  message : Option String
  status : Option ℤ
  statusText : Option String
  deriving Repr, DecidableEq

/-- An HTTP-layer error value: either a bare string (the
`typeof err === 'string'` case) or an object. -/
inductive JsErr where
  | str (s : String)
  | obj (f : ErrFields)
  deriving Repr, DecidableEq

/-- JavaScript `err.cancelled` truthiness (undefined on a bare string). -/
def errCancelled : JsErr → Bool
  | .str _ => false
  | .obj f => f.cancelled

/-- JavaScript `err.status` (undefined on a bare string). -/
def errStatus : JsErr → Option ℤ
  | .str _ => none
  | .obj f => f.status

/-- JavaScript `err.statusText` (undefined on a bare string). -/
def errStatusText : JsErr → Option String
  | .str _ => none
  | .obj f => f.statusText

/-- The generic fallback message of `handleErrors`. -/
def unknownErrorMessage : String :=
  "Unknown error during query transaction. Please check JS console logs."

/-- The `else if (err.message) ... else if (typeof err === 'string')`
tail of the message selection, for an error that is an object whose
`data` field is falsy. -/
def fallbackMessage (f : ErrFields) : String :=
  match f.message with
  | some m => if m ≠ "" then m else unknownErrorMessage
  | none => unknownErrorMessage

/-- Message selection of `handleErrors`: `err.data` string wins when
truthy, then `err.data.error` (stringified), then `err.message`, then a
bare string error, and finally the generic fallback. -/
def errMessage (stringify : String → String) : JsErr → String
  | .str s => s
  | .obj f =>
    match f.data with
    | some (.str s) => if s ≠ "" then s else fallbackMessage f
    | some (.obj e) =>
      match e with
      | some es => if es ≠ "" then stringify es else unknownErrorMessage
      | none => unknownErrorMessage
    | none => fallbackMessage f

/-- Embedding of `PrometheusDatasource.handleErrors`: a cancelled error is
returned as-is (`Except.ok`), anything else is thrown (`Except.error`) as a
`DataQueryError` carrying the selected message, the target's `refId` and
the original `status` / `statusText`. -/
def handleErrors (stringify : String → String) (err : JsErr) (target : PromQuery) :
    Except DataQueryError JsErr :=
  if errCancelled err = true then Except.ok err
  else
    Except.error
      { message := errMessage stringify err
        refId := target.refId
        status := errStatus err
        statusText := errStatusText err }

/-- A response as seen by the `query` combiner: the `cancelled` marker plus
an opaque payload consumed by the external result transformer. -/
structure PromResponse (ρ : Type) where
  cancelled : Bool
  data : ρ
  deriving Repr, DecidableEq

/-- The response-combining loop of `PrometheusDatasource.query`: walk the
response list in order, skip cancelled responses, and append the series
produced by `processResult` (abstracted as `process`, applied to the
response and its positionally matching query and target). -/
def queryCombine {ρ σ : Type} (process : PromResponse ρ → PromQueryRequest → PromQuery → List σ)
    (items : List (PromResponse ρ × PromQueryRequest × PromQuery)) : List σ :=
  items.foldl
    (fun result item =>
      if item.1.cancelled = true then result
      else result ++ process item.1 item.2.1 item.2.2)
    []

/-- One `[timestamp, value]` pair of a Prometheus range-query series, as
read by `annotationQuery`: `ts` is `value[0]`, `val` is
`parseFloat(value[1])`, and `isOne` is the result of the string comparison
`value[1] === '1'`. -/
structure PromValue where
  ts : ℚ
  val : ℚ
  isOne : Bool
  deriving Repr, DecidableEq

/-- One series of an annotation response (its metric labels only feed the
externally rendered title/text/tags, which carry no dedup state). -/
structure PromSeries where
  values : List PromValue
  deriving Repr, DecidableEq

/-- An emitted annotation event, reduced to the field the dedup logic
manages: its `time`. -/
structure PromEvent where
  time : ℤ
  deriving Repr, DecidableEq

/-- The per-series loop of `annotationQuery`: `dupCheck` is the set of
floored timestamp values already emitted for this series.  A value is
considered when it is `'1'` or `useValueForTime` is set; with
`useValueForTime` the event time is `Math.floor(parseFloat(value[1]))` and
duplicates are skipped, otherwise it is
`Math.floor(parseFloat(value[0])) * 1000`. -/
def seriesEvents (useValueForTime : Bool) (dupCheck : List ℤ) :
    List PromValue → List PromEvent
  | [] => []
  | v :: rest =>
    if v.isOne || useValueForTime then
      if useValueForTime then
        let timestampValue := ⌊v.val⌋
        if timestampValue ∈ dupCheck then
          seriesEvents useValueForTime dupCheck rest
        else
          ⟨timestampValue⟩ :: seriesEvents useValueForTime (timestampValue :: dupCheck) rest
      else
        ⟨⌊v.ts⌋ * 1000⟩ :: seriesEvents useValueForTime dupCheck rest
    else
      seriesEvents useValueForTime dupCheck rest

/-- The event list built by `annotationQuery` from a response: each series
is processed with a fresh `dupCheck`, and the per-series events are pushed
onto one flat list. -/
def annotationQueryEvents (useValueForTime : Bool) (result : List PromSeries) :
    List PromEvent :=
  (result.map (fun series => seriesEvents useValueForTime [] series.values)).flatten

/-- A query parameter value: the source mixes strings (`query`, `timeout`)
and numbers (`start`, `end`, `step`). -/
inductive ParamValue where
  | str (s : String)
  | num (q : ℚ)
  deriving Repr, DecidableEq

/-- JavaScript truthiness of an optional string setting such as
`this.queryTimeout` (absent or empty is falsy). -/
def jsStrTruthy : Option String → Bool
  | none => false
  | some s => !s.isEmpty

/-- Embedding of `PrometheusDatasource.performTimeSeriesQuery` up to the
HTTP call: it throws on an inverted range, and otherwise requests
`/api/v1/query_range` with parameters `query`, `start`, `end`, `step`,
plus `timeout` exactly when the datasource's `queryTimeout` is set. -/
def performTimeSeriesQueryRequest (queryTimeout : Option String)
    (query : PromQueryRequest) (start stop : ℚ) :
    Except String (String × List (String × ParamValue)) :=
  if start > stop then Except.error "Invalid time range"
  else
    let data : List (String × ParamValue) :=
      [("query", ParamValue.str query.expr), ("start", ParamValue.num start),
        ("end", ParamValue.num stop), ("step", ParamValue.num query.step)]
    let data :=
      if jsStrTruthy queryTimeout = true then
        data ++ [("timeout", ParamValue.str (queryTimeout.getD ""))]
      else data
    Except.ok ("/api/v1/query_range", data)

/-- The metric-name suggestion cache (`this.metricsNameCache`). -/
structure MetricsNameCache where
  data : List String
  expire : ℤ
  deriving Repr, DecidableEq

/-- JavaScript `String.prototype.indexOf`: index of the first occurrence
of `pat`, walking the character list. -/
def jsIndexOfAux (pat : List Char) : List Char → ℕ → Option ℕ
  | [], i => if pat.isEmpty then some i else none
  | c :: rest, i =>
    if pat.isPrefixOf (c :: rest) then some i else jsIndexOfAux pat rest (i + 1)

/-- JavaScript `s.indexOf(query)`: first occurrence index, or -1. -/
def jsIndexOf (s query : String) : ℤ :=
  match jsIndexOfAux query.toList s.toList 0 with
  | some n => (n : ℤ)
  | none => -1

/-- The filter `performSuggestQuery` applies to metric names
(`metricName.indexOf(query) !== 1`, as written in the source). -/
def suggestFilter (query : String) (names : List String) : List String :=
  names.filter (fun metricName => decide (jsIndexOf metricName query ≠ 1))

/-- Outcome of one `performSuggestQuery` call: the resolved list, the
cache state afterwards, and whether an HTTP request was issued. -/
structure SuggestOutcome where
  result : List String
  metricsNameCache : Option MetricsNameCache
  requested : Bool
  deriving Repr, DecidableEq

/-- The fetch path of `performSuggestQuery`: request the names (`fetched`
is the HTTP response payload), store them with an expiry 60 seconds from
now, and resolve with the filtered list. -/
def performSuggestQueryFetch (now : ℤ) (query : String) (fetched : List String) :
    SuggestOutcome :=
  { result := suggestFilter query fetched
    metricsNameCache := some { data := fetched, expire := now + 60 * 1000 }
    requested := true }

/-- Embedding of `PrometheusDatasource.performSuggestQuery`: answer from
the cache exactly when caching is requested, a cache exists and its expiry
lies strictly in the future; otherwise fetch and replace the cache. -/
def performSuggestQuery (metricsNameCache : Option MetricsNameCache) (now : ℤ)
    (query : String) (cache : Bool) (fetched : List String) : SuggestOutcome :=
  match metricsNameCache with
  | some c =>
    if cache && decide (now < c.expire) then
      { result := suggestFilter query c.data
        metricsNameCache := some c
        requested := false }
    else performSuggestQueryFetch now query fetched
  | none => performSuggestQueryFetch now query fetched

/-- Embedding of `PrometheusDatasource.prepareTargets`: drop targets with
an empty expression or the hide flag; an Explore-context target is first
rewritten to a time-series target and additionally contributes a cloned
instant table target (pushed before it, with `_instant` suffixes). -/
def prepareTargets (mkQuery : PromQuery → PromQueryRequest) :
    List PromQuery → List PromQueryRequest × List PromQuery
  | [] => ([], [])
  | target :: rest =>
    if target.expr = "" ∨ target.hide = true then prepareTargets mkQuery rest
    else if target.context = PromContext.explore then
      let exploreTarget : PromQuery := { target with format := "time_series", instant := false }
      let instantTarget : PromQuery :=
        { exploreTarget with
            format := "table", instant := true, valueWithRefId := true,
            requestId := exploreTarget.requestId ++ "_instant",
            refId := exploreTarget.refId ++ "_instant" }
      let tail := prepareTargets mkQuery rest
      (mkQuery instantTarget :: mkQuery exploreTarget :: tail.1,
        instantTarget :: exploreTarget :: tail.2)
    else
      let tail := prepareTargets mkQuery rest
      (mkQuery target :: tail.1, target :: tail.2)

/-- Embedding of `PrometheusDatasource.query` (promise path): prepare the
targets, short-circuit to `{ data: [] }` with no HTTP traffic when no
query survives, otherwise perform one request per query (`perform` is the
HTTP layer) and combine the responses.  The second component counts the
HTTP requests issued. -/
def queryResult {ρ σ : Type} (mkQuery : PromQuery → PromQueryRequest)
    (perform : PromQueryRequest → PromResponse ρ)
    (process : PromResponse ρ → PromQueryRequest → PromQuery → List σ)
    (targets : List PromQuery) : List σ × ℕ :=
  let pair := prepareTargets mkQuery targets
  if pair.1.isEmpty then ([], 0)
  else
    (queryCombine process ((pair.1.zip pair.2).map (fun qa => (perform qa.1, qa.1, qa.2))),
      pair.1.length)

/-- Helper: the step stored by `createQuery` is exactly the adjusted
interval (the `if interval !== adjustedInterval` dance is the identity on
the final step value). -/
lemma createQuery_step_eq (intervalSeconds minIntervalSeconds : ℚ)
    (replaceExpr : String → String) (panelId : String) (target : PromQuery)
    (start stop : ℚ) :
    (createQuery intervalSeconds minIntervalSeconds replaceExpr panelId target start stop).step =
      adjustInterval intervalSeconds minIntervalSeconds ((⌈stop - start⌉ : ℤ) : ℚ)
        (jsIntervalFactor target.intervalFactor) := by
  unfold createQuery
  dsimp only
  split
  · rfl
  · next h => exact not_not.mp h

/-- Helper: `adjustInterval` always returns at least `max minInterval 1`. -/
lemma adjustInterval_ge (interval minInterval range intervalFactor : ℚ) :
    1 ≤ adjustInterval interval minInterval range intervalFactor ∧
      minInterval ≤ adjustInterval interval minInterval range intervalFactor := by
  unfold adjustInterval
  exact ⟨le_max_of_le_right (le_max_right _ _), le_max_of_le_right (le_max_left _ _)⟩

/-- C10: `adjustInterval` always returns a value that is at least 1 and at
least `minInterval`; hence every query built by `createQuery` has a step
that is at least 1, and in particular `alignRange` is never called with a
zero step. -/
theorem adjustInterval_lower_bound_and_createQuery_step_positive :
    (∀ interval minInterval range intervalFactor : ℚ,
        1 ≤ adjustInterval interval minInterval range intervalFactor ∧
        minInterval ≤ adjustInterval interval minInterval range intervalFactor) ∧
    (∀ (intervalSeconds minIntervalSeconds : ℚ) (replaceExpr : String → String)
        (panelId : String) (target : PromQuery) (start stop : ℚ),
        1 ≤ (createQuery intervalSeconds minIntervalSeconds replaceExpr panelId
              target start stop).step ∧
        (createQuery intervalSeconds minIntervalSeconds replaceExpr panelId
              target start stop).step ≠ 0) := by
  refine ⟨fun i m r f => adjustInterval_ge i m r f, ?_⟩
  intro is ms re pid t start stop
  rw [createQuery_step_eq]
  have h1 := (adjustInterval_ge is ms ((⌈stop - start⌉ : ℤ) : ℚ)
    (jsIntervalFactor t.intervalFactor)).1
  exact ⟨h1, by linarith⟩

/-- Helper: for positive `step`, `⌊x / step⌋ * step` is a lower bound of `x`
and dominates every integer multiple of `step` that is at most `x`. -/
lemma floor_div_mul_le_and_max (x step : ℚ) (h : 0 < step) :
    (⌊x / step⌋ : ℚ) * step ≤ x ∧
      ∀ k : ℤ, (k : ℚ) * step ≤ x → (k : ℚ) * step ≤ (⌊x / step⌋ : ℚ) * step := by
  constructor
  · calc (⌊x / step⌋ : ℚ) * step ≤ (x / step) * step :=
          mul_le_mul_of_nonneg_right (Int.floor_le _) h.le
      _ = x := div_mul_cancel₀ x h.ne'
  · intro k hk
    have h1 : (k : ℚ) ≤ x / step := (le_div_iff₀ h).mpr hk
    have h2 : k ≤ ⌊x / step⌋ := Int.le_floor.mpr h1
    exact mul_le_mul_of_nonneg_right (by exact_mod_cast h2) h.le

/-- C1: for every start, end and positive step, `alignRange(start, end, step)`
returns a pair whose start is the largest multiple of step not exceeding the
original start and whose end is the largest multiple of step not exceeding
the original end. -/
theorem alignRange_largest_multiples (start stop step : ℚ) (h : 0 < step) :
    ((∃ k : ℤ, (alignRange start stop step).start = (k : ℚ) * step) ∧
      (alignRange start stop step).start ≤ start ∧
      ∀ k : ℤ, (k : ℚ) * step ≤ start → (k : ℚ) * step ≤ (alignRange start stop step).start) ∧
    ((∃ k : ℤ, (alignRange start stop step).stop = (k : ℚ) * step) ∧
      (alignRange start stop step).stop ≤ stop ∧
      ∀ k : ℤ, (k : ℚ) * step ≤ stop → (k : ℚ) * step ≤ (alignRange start stop step).stop) := by
  have hs := floor_div_mul_le_and_max start step h
  have he := floor_div_mul_le_and_max stop step h
  exact ⟨⟨⟨⌊start / step⌋, rfl⟩, hs.1, hs.2⟩, ⟨⟨⌊stop / step⌋, rfl⟩, he.1, he.2⟩⟩

/-- Witness for C1 at start = 7, end = 10, step = 3. -/
theorem alignRange_largest_multiples_witness :
    (0 : ℚ) < 3 ∧
      (((∃ k : ℤ, (alignRange 7 10 3).start = (k : ℚ) * 3) ∧
        (alignRange 7 10 3).start ≤ 7 ∧
        ∀ k : ℤ, (k : ℚ) * 3 ≤ 7 → (k : ℚ) * 3 ≤ (alignRange 7 10 3).start) ∧
      ((∃ k : ℤ, (alignRange 7 10 3).stop = (k : ℚ) * 3) ∧
        (alignRange 7 10 3).stop ≤ 10 ∧
        ∀ k : ℤ, (k : ℚ) * 3 ≤ 10 → (k : ℚ) * 3 ≤ (alignRange 7 10 3).stop)) :=
  ⟨by decide, alignRange_largest_multiples 7 10 3 (by decide)⟩

/-- C2 counterexample: with `interval = 0` the calibration branch is skipped
and `adjustInterval 0 0 100000 1 = 1`, so the range of 100000 yields
100000 data points, far above 11000, while all the claim's hypotheses
(non-negative inputs, `intervalFactor ≥ 1`) hold. -/
theorem adjustInterval_zero_interval_counterexample :
    (0 : ℚ) ≤ 0 ∧ (0 : ℚ) ≤ 0 ∧ (0 : ℚ) ≤ 100000 ∧ (1 : ℚ) ≤ 1 ∧
      ¬ (100000 / adjustInterval 0 0 100000 1 ≤ 11000) := by
  norm_num [adjustInterval]

/-- C2 (amended: `interval` positive rather than merely non-negative):
the interval returned by `adjustInterval` yields at most 11000 data points
over the range. -/
theorem adjustInterval_data_point_ceiling (interval minInterval range intervalFactor : ℚ)
    (hi : 0 < interval) (_hm : 0 ≤ minInterval) (_hr : 0 ≤ range) (hf : 1 ≤ intervalFactor) :
    range / adjustInterval interval minInterval range intervalFactor ≤ 11000 := by
  have hf0 : (0 : ℚ) < intervalFactor := lt_of_lt_of_le one_pos hf
  unfold adjustInterval
  by_cases hc : interval ≠ 0 ∧ 11000 < range / intervalFactor / interval
  · simp only [if_pos hc]
    set c : ℚ := ((⌈range / intervalFactor / 11000⌉ : ℤ) : ℚ) with hc_def
    have hceil : range / intervalFactor / 11000 ≤ c := Int.le_ceil _
    have hA1 : (1 : ℚ) ≤ max (c * intervalFactor) (max minInterval 1) :=
      le_max_of_le_right (le_max_right _ _)
    have hApos : (0 : ℚ) < max (c * intervalFactor) (max minInterval 1) :=
      lt_of_lt_of_le one_pos hA1
    rw [div_le_iff₀ hApos]
    have h1 : range / 11000 ≤ c * intervalFactor := by
      have hmul := mul_le_mul_of_nonneg_right hceil hf0.le
      calc range / 11000 = range / intervalFactor / 11000 * intervalFactor := by
            field_simp
            ring
          _ ≤ c * intervalFactor := hmul
    have h2 : c * intervalFactor ≤ max (c * intervalFactor) (max minInterval 1) :=
      le_max_left _ _
    have h3 : range / 11000 ≤ max (c * intervalFactor) (max minInterval 1) :=
      le_trans h1 h2
    have h4 : range ≤ max (c * intervalFactor) (max minInterval 1) * 11000 :=
      (div_le_iff₀ (by norm_num)).mp h3
    linarith
  · simp only [if_neg hc]
    push_neg at hc
    have hle : range / intervalFactor / interval ≤ 11000 := hc hi.ne'
    have hif : (0 : ℚ) < interval * intervalFactor := mul_pos hi hf0
    have hA : interval * intervalFactor ≤ max (interval * intervalFactor) (max minInterval 1) :=
      le_max_left _ _
    have hApos : (0 : ℚ) < max (interval * intervalFactor) (max minInterval 1) :=
      lt_of_lt_of_le hif hA
    rw [div_le_iff₀ hApos]
    rw [div_div] at hle
    have hkey : range ≤ 11000 * (intervalFactor * interval) :=
      (div_le_iff₀ (mul_pos hf0 hi)).mp hle
    nlinarith [mul_le_mul_of_nonneg_right hA (show (0 : ℚ) ≤ 11000 by norm_num)]

/-- Witness for C2 (amended) at interval = 1, minInterval = 0,
range = 100000, intervalFactor = 1. -/
theorem adjustInterval_data_point_ceiling_witness :
    (0 : ℚ) < 1 ∧ (0 : ℚ) ≤ 0 ∧ (0 : ℚ) ≤ 100000 ∧ (1 : ℚ) ≤ 1 ∧
      100000 / adjustInterval 1 0 100000 1 ≤ 11000 :=
  ⟨by decide, by decide, by decide, by decide,
    adjustInterval_data_point_ceiling 1 0 100000 1 (by decide) (by decide) (by decide) (by decide)⟩

/-- Helper: with `useValueForTime` set, the events produced from one
series have pairwise-distinct times, and none of them repeats a time
already recorded in `dupCheck`. -/
lemma seriesEvents_true_nodup (dupCheck : List ℤ) (values : List PromValue) :
    ((seriesEvents true dupCheck values).map PromEvent.time).Nodup ∧
      ∀ e ∈ seriesEvents true dupCheck values, e.time ∉ dupCheck := by
  induction values generalizing dupCheck with
  | nil => simp [seriesEvents]
  | cons v rest ih =>
    simp only [seriesEvents, Bool.or_true, if_true]
    by_cases hmem : ⌊v.val⌋ ∈ dupCheck
    · simp only [if_pos hmem]
      exact ih dupCheck
    · simp only [if_neg hmem]
      obtain ⟨ih1, ih2⟩ := ih (⌊v.val⌋ :: dupCheck)
      refine ⟨?_, ?_⟩
      · rw [List.map_cons, List.nodup_cons]
        refine ⟨?_, ih1⟩
        intro hmap
        obtain ⟨e, he, hte⟩ := List.mem_map.mp hmap
        exact ih2 e he (hte ▸ List.mem_cons_self _ _)
      · intro e he
        rcases List.mem_cons.mp he with rfl | he'
        · exact hmem
        · exact fun hc => ih2 e he' (List.mem_cons_of_mem _ hc)

/-- C3: with `useValueForTime` set, `annotationQuery` emits at most one
event per distinct floored timestamp value within each series (the event
times of one series are pairwise distinct), while the same timestamp in a
different series is emitted again (witnessed by two identical one-value
series producing two events with the same time). -/
theorem annotationQuery_useValueForTime_dedup :
    (∀ series : PromSeries,
        ((seriesEvents true [] series.values).map PromEvent.time).Nodup) ∧
      (annotationQueryEvents true
          [⟨[⟨0, 5, false⟩]⟩, ⟨[⟨0, 5, false⟩]⟩]).map PromEvent.time = [5, 5] := by
  refine ⟨fun series => (seriesEvents_true_nodup [] series.values).1, ?_⟩
  decide

/-- Helper: the fold of the `query` response combiner ignores a cancelled
response wherever it sits, from any accumulator. -/
lemma queryCombine_foldl_skip {ρ σ : Type}
    (process : PromResponse ρ → PromQueryRequest → PromQuery → List σ)
    (x : PromResponse ρ × PromQueryRequest × PromQuery) (hx : x.1.cancelled = true)
    (pre post : List (PromResponse ρ × PromQueryRequest × PromQuery)) :
    ∀ acc : List σ,
      (pre ++ x :: post).foldl
          (fun result item =>
            if item.1.cancelled = true then result
            else result ++ process item.1 item.2.1 item.2.2) acc =
        (pre ++ post).foldl
          (fun result item =>
            if item.1.cancelled = true then result
            else result ++ process item.1 item.2.1 item.2.2) acc := by
  induction pre with
  | nil =>
    intro acc
    simp only [List.nil_append, List.foldl_cons, if_pos hx]
  | cons a pre ih =>
    intro acc
    simp only [List.cons_append, List.foldl_cons]
    exact ih _

/-- C4: a cancelled error is returned unchanged by `handleErrors` rather
than thrown, and the `query` combiner drops a cancelled response wherever
it occurs, so a cancelled query contributes no series and no error. -/
theorem cancelled_is_non_error_short_circuit :
    (∀ (stringify : String → String) (err : JsErr) (target : PromQuery),
        errCancelled err = true → handleErrors stringify err target = Except.ok err) ∧
      ∀ (ρ σ : Type) (process : PromResponse ρ → PromQueryRequest → PromQuery → List σ)
        (pre post : List (PromResponse ρ × PromQueryRequest × PromQuery))
        (x : PromResponse ρ × PromQueryRequest × PromQuery),
        x.1.cancelled = true →
        queryCombine process (pre ++ x :: post) = queryCombine process (pre ++ post) := by
  refine ⟨fun stringify err target h => ?_, fun ρ σ process pre post x hx => ?_⟩
  · simp [handleErrors, h]
  · exact queryCombine_foldl_skip process x hx pre post []

/-- Witness for C4: a cancelled error object passes through `handleErrors`,
and a cancelled response in a singleton response list yields the same
(empty) combined result as no response at all. -/
theorem cancelled_is_non_error_short_circuit_witness :
    handleErrors id (JsErr.obj ⟨true, none, none, none, none⟩)
        ⟨"up", false, PromContext.panel, "time_series", false, false, "1A", "A", none, false⟩ =
      Except.ok (JsErr.obj ⟨true, none, none, none, none⟩) ∧
    queryCombine
        (fun (_ : PromResponse Unit) (_ : PromQueryRequest) (_ : PromQuery) => ([] : List Unit))
        ([] ++ (⟨true, ()⟩, ⟨false, false, 1, "up", "1A", "A", 0, 0⟩,
          ⟨"up", false, PromContext.panel, "time_series", false, false, "1A", "A", none, false⟩) :: []) =
      queryCombine
        (fun (_ : PromResponse Unit) (_ : PromQueryRequest) (_ : PromQuery) => ([] : List Unit))
        ([] ++ []) :=
  ⟨cancelled_is_non_error_short_circuit.1 id _ _ rfl,
    cancelled_is_non_error_short_circuit.2 Unit Unit _ [] [] _ rfl⟩

/-- C5: every non-cancelled HTTP-layer error is thrown as a single uniform
`DataQueryError` carrying a message, the original error's status (and
status text), and the `refId` of the originating query. -/
theorem handleErrors_normalizes_non_cancelled (stringify : String → String)
    (err : JsErr) (target : PromQuery) (h : errCancelled err = false) :
    ∃ e : DataQueryError,
      handleErrors stringify err target = Except.error e ∧
        e.message = errMessage stringify err ∧ e.refId = target.refId ∧
        e.status = errStatus err ∧ e.statusText = errStatusText err := by
  refine ⟨{ message := errMessage stringify err, refId := target.refId,
            status := errStatus err, statusText := errStatusText err },
    ?_, rfl, rfl, rfl, rfl⟩
  simp [handleErrors, h]

/-- Witness for C5 on an error object with a plain `message` field,
status 500 and status text present. -/
theorem handleErrors_normalizes_non_cancelled_witness :
    ∃ e : DataQueryError,
      handleErrors id (JsErr.obj ⟨false, none, some "boom", some 500, some "ISE"⟩)
          ⟨"up", false, PromContext.panel, "time_series", false, false, "1A", "A", none, false⟩ =
        Except.error e ∧
        e.message = errMessage id (JsErr.obj ⟨false, none, some "boom", some 500, some "ISE"⟩) ∧
        e.refId = "A" ∧
        e.status = errStatus (JsErr.obj ⟨false, none, some "boom", some 500, some "ISE"⟩) ∧
        e.statusText = errStatusText (JsErr.obj ⟨false, none, some "boom", some 500, some "ISE"⟩) :=
  handleErrors_normalizes_non_cancelled id _ _ rfl

/-- C6: a non-cancelled error with no `data` field, no `message` field and
which is not a bare string is thrown with the generic fallback message. -/
theorem handleErrors_generic_message (stringify : String → String) (f : ErrFields)
    (target : PromQuery) (hc : f.cancelled = false) (hd : f.data = none)
    (hm : f.message = none) :
    ∃ e : DataQueryError,
      handleErrors stringify (JsErr.obj f) target = Except.error e ∧
        e.message = "Unknown error during query transaction. Please check JS console logs." := by
  refine ⟨{ message := errMessage stringify (JsErr.obj f), refId := target.refId,
            status := errStatus (JsErr.obj f), statusText := errStatusText (JsErr.obj f) },
    ?_, ?_⟩
  · simp [handleErrors, errCancelled, hc]
  · simp [errMessage, hd, fallbackMessage, hm, unknownErrorMessage]

/-- Witness for C6 on the empty error object. -/
theorem handleErrors_generic_message_witness :
    ∃ e : DataQueryError,
      handleErrors id (JsErr.obj ⟨false, none, none, none, none⟩)
          ⟨"up", false, PromContext.panel, "time_series", false, false, "1A", "A", none, false⟩ =
        Except.error e ∧
        e.message = "Unknown error during query transaction. Please check JS console logs." :=
  handleErrors_generic_message id ⟨false, none, none, none, none⟩ _ rfl rfl rfl

/-- C7: for a valid range, `performTimeSeriesQuery` targets
`/api/v1/query_range` with exactly the parameters `query`, `start`, `end`
and `step`, plus `timeout` if and only if the datasource's `queryTimeout`
is configured, and nothing else. -/
theorem performTimeSeriesQuery_range_params (queryTimeout : Option String)
    (query : PromQueryRequest) (start stop : ℚ) (h : start ≤ stop) :
    ∃ ps : List (String × ParamValue),
      performTimeSeriesQueryRequest queryTimeout query start stop =
          Except.ok ("/api/v1/query_range", ps) ∧
        ps.map Prod.fst =
          (if jsStrTruthy queryTimeout = true then ["query", "start", "end", "step", "timeout"]
            else ["query", "start", "end", "step"]) ∧
        ("query", ParamValue.str query.expr) ∈ ps ∧
        ("start", ParamValue.num start) ∈ ps ∧
        ("end", ParamValue.num stop) ∈ ps ∧
        ("step", ParamValue.num query.step) ∈ ps ∧
        (jsStrTruthy queryTimeout = true →
          ("timeout", ParamValue.str (queryTimeout.getD "")) ∈ ps) := by
  have hns : ¬ start > stop := not_lt.mpr h
  by_cases ht : jsStrTruthy queryTimeout = true
  · refine ⟨[("query", ParamValue.str query.expr), ("start", ParamValue.num start),
      ("end", ParamValue.num stop), ("step", ParamValue.num query.step),
      ("timeout", ParamValue.str (queryTimeout.getD ""))], ?_, ?_, ?_, ?_, ?_, ?_, ?_⟩
    · simp [performTimeSeriesQueryRequest, hns, ht]
    · simp [ht]
    all_goals simp
  · refine ⟨[("query", ParamValue.str query.expr), ("start", ParamValue.num start),
      ("end", ParamValue.num stop), ("step", ParamValue.num query.step)], ?_, ?_, ?_, ?_, ?_, ?_, ?_⟩
    · simp [performTimeSeriesQueryRequest, hns, ht]
    · simp [ht]
    · simp
    · simp
    · simp
    · simp
    · intro hc
      exact absurd hc ht

/-- Witness for C7 with a configured 60s query timeout and the range 0..100. -/
theorem performTimeSeriesQuery_range_params_witness :
    ∃ ps : List (String × ParamValue),
      performTimeSeriesQueryRequest (some "60s") ⟨false, false, 15, "up", "1A", "A", 0, 0⟩ 0 100 =
          Except.ok ("/api/v1/query_range", ps) ∧
        ps.map Prod.fst =
          (if jsStrTruthy (some "60s") = true then ["query", "start", "end", "step", "timeout"]
            else ["query", "start", "end", "step"]) ∧
        ("query", ParamValue.str "up") ∈ ps ∧
        ("start", ParamValue.num 0) ∈ ps ∧
        ("end", ParamValue.num 100) ∈ ps ∧
        ("step", ParamValue.num 15) ∈ ps ∧
        (jsStrTruthy (some "60s") = true →
          ("timeout", ParamValue.str ((some "60s").getD "")) ∈ ps) :=
  performTimeSeriesQuery_range_params (some "60s") ⟨false, false, 15, "up", "1A", "A", 0, 0⟩
    0 100 (by decide)

/-- C8: with caching requested, `performSuggestQuery` answers without an
HTTP request exactly when a cache exists whose expiry is strictly in the
future; whenever it does fetch, the stored cache expires 60 seconds
(60000 ms) after the current time. -/
theorem performSuggestQuery_cache_expiry (mnc : Option MetricsNameCache) (now : ℤ)
    (query : String) (fetched : List String) :
    ((performSuggestQuery mnc now query true fetched).requested = false ↔
        ∃ c, mnc = some c ∧ now < c.expire) ∧
      ((performSuggestQuery mnc now query true fetched).requested = true →
        (performSuggestQuery mnc now query true fetched).metricsNameCache =
          some { data := fetched, expire := now + 60 * 1000 }) := by
  cases mnc with
  | none => simp [performSuggestQuery, performSuggestQueryFetch]
  | some c =>
    by_cases h : now < c.expire
    · simp [performSuggestQuery, h]
    · simp [performSuggestQuery, h, performSuggestQueryFetch]

/-- Witness for C8: with no cache present, the call fetches and stores a
cache expiring 60000 ms later. -/
theorem performSuggestQuery_cache_expiry_witness :
    ((performSuggestQuery none 0 "u" true ["up"]).requested = false ↔
        ∃ c, (none : Option MetricsNameCache) = some c ∧ (0 : ℤ) < c.expire) ∧
      ((performSuggestQuery none 0 "u" true ["up"]).requested = true →
        (performSuggestQuery none 0 "u" true ["up"]).metricsNameCache =
          some { data := ["up"], expire := 0 + 60 * 1000 }) :=
  performSuggestQuery_cache_expiry none 0 "u" ["up"]

/-- Helper: a target list in which every entry has an empty expression or
the hide flag set survives `prepareTargets` as nothing at all. -/
lemma prepareTargets_all_inactive (mkQuery : PromQuery → PromQueryRequest)
    (targets : List PromQuery) (h : ∀ t ∈ targets, t.expr = "" ∨ t.hide = true) :
    prepareTargets mkQuery targets = ([], []) := by
  induction targets with
  | nil => rfl
  | cons t rest ih =>
    have ht := h t (List.mem_cons_self t rest)
    simp only [prepareTargets, if_pos ht]
    exact ih (fun t' ht' => h t' (List.mem_cons_of_mem t ht'))

/-- C9: when every target has an empty expression or is hidden, `query`
resolves to the empty data set without issuing a single HTTP request. -/
theorem query_no_valid_targets_is_empty {ρ σ : Type}
    (mkQuery : PromQuery → PromQueryRequest) (perform : PromQueryRequest → PromResponse ρ)
    (process : PromResponse ρ → PromQueryRequest → PromQuery → List σ)
    (targets : List PromQuery) (h : ∀ t ∈ targets, t.expr = "" ∨ t.hide = true) :
    queryResult mkQuery perform process targets = ([], 0) := by
  simp only [queryResult, prepareTargets_all_inactive mkQuery targets h]
  rfl

/-- Witness for C9 on one empty-expression target and one hidden target. -/
theorem query_no_valid_targets_is_empty_witness :
    queryResult (ρ := Unit) (σ := Unit)
        (fun _ => ⟨false, false, 1, "", "", "", 0, 0⟩)
        (fun _ => ⟨false, ()⟩)
        (fun _ _ _ => [])
        [⟨"", false, PromContext.panel, "", false, false, "", "A", none, false⟩,
          ⟨"up", true, PromContext.panel, "", false, false, "", "B", none, false⟩] =
      ([], 0) :=
  query_no_valid_targets_is_empty _ _ _ _ (by decide)

end PromDatasource
